import Mathlib

/-!
Verification of the waybar-module-pomodoro IPC-and-state-machine core.

The repository ships one source file, src/src/services/server.rs, which
contains the accept loop, the tick loop (handle_client), process_message,
format_time, create_message and the unit tests. The Timer, Message and
Config types live in modules that are not part of the provided sources,
so those are modelled from the spec (each such definition carries a doc
comment starting with "Modelled from the spec:"); everything else is a
direct shallow embedding of server.rs.

Strings handled by the protocol are embedded as List Char (the payload
bytes); display strings use String. Machine integers of the source (u16
fields of the timer) are embedded as Nat with explicit reduction modulo
65536 where the source performs u16 arithmetic; u16 subtraction is the
two's-complement wrapping operation of a release build.
-/

namespace Pomodoro

/-- Seconds per minute, from utils::consts::MINUTE. -/
def MINUTE : Nat := 60

/-- Modulus of u16 arithmetic. -/
def U16MOD : Nat := 65536

/-- The three timer phases (services::timer::CycleType). -/
inductive CycleType
  | Work
  | ShortBreak
  | LongBreak
deriving DecidableEq, Repr

/-! ## Command protocol (Modelled from the spec)

The Message type with encode/decode is not among the provided sources;
the spec (section 4.1 and Scenario B) describes a structured payload
carrying a command name and a non-negative integer value, with a
"set-work:30"-equivalent text form. We model the wire form as
name, colon, decimal digits of the value. -/

/-- Decimal digit to its character. -/
def digitChar : Nat → Char
  | 0 => '0'
  | 1 => '1'
  | 2 => '2'
  | 3 => '3'
  | 4 => '4'
  | 5 => '5'
  | 6 => '6'
  | 7 => '7'
  | 8 => '8'
  | 9 => '9'
  | _ => '?'

/-- Character to its decimal digit value. -/
def charVal (c : Char) : Nat := c.toNat - 48

/-- Is the character a decimal digit. -/
def isDigitChar (c : Char) : Bool := 48 ≤ c.toNat && c.toNat ≤ 57

/-- Little-endian digit characters of n, with fuel for structural recursion. -/
def digitsCore : Nat → Nat → List Char
  | 0, _ => []
  | fuel + 1, n => if n = 0 then [] else digitChar (n % 10) :: digitsCore fuel (n / 10)

/-- Big-endian decimal representation of n. -/
def natChars (n : Nat) : List Char :=
  if n = 0 then ['0'] else (digitsCore n n).reverse

/-- Value of a big-endian digit string. -/
def digitsVal (cs : List Char) : Nat :=
  cs.foldl (fun acc c => 10 * acc + charVal c) 0

/-- Parse a non-empty all-digit string; anything else fails. -/
def parseValue (cs : List Char) : Option Nat :=
  if cs.isEmpty then none
  else if cs.all isDigitChar then some (digitsVal cs) else none

/-- Split a payload at its first colon: the part before and the part after. -/
def splitColon : List Char → Option (List Char × List Char)
  | [] => none
  | c :: cs =>
    if c = ':' then some ([], cs)
    else (splitColon cs).map (fun p => (c :: p.1, p.2))

/-- Modelled from the spec: the structured command of section 4.1, a
command name plus a non-negative integer value (models::message::Message,
not among the provided sources). -/
structure Message where
  name : List Char
  value : Nat
deriving DecidableEq, Repr

/-- Modelled from the spec: Message::encode, the lossless text form of a
structured command, name then colon then the decimal value. -/
def Message.encode (m : Message) : List Char :=
  m.name ++ ':' :: natChars m.value

/-- Modelled from the spec: Message::decode; fails (returns none) on any
payload that is not name, colon, non-empty digits — it never panics, it
degrades to "not a structured command". -/
def Message.decode (cs : List Char) : Option Message :=
  match splitColon cs with
  | none => none
  | some p =>
    match parseValue p.2 with
    | none => none
    | some v => some ⟨p.1, v⟩

lemma charVal_digitChar (d : Nat) (h : d < 10) : charVal (digitChar d) = d := by
  interval_cases d <;> decide

lemma isDigitChar_digitChar (d : Nat) (h : d < 10) : isDigitChar (digitChar d) = true := by
  interval_cases d <;> decide

lemma digitsCore_all (fuel n : Nat) : (digitsCore fuel n).all isDigitChar = true := by
  induction fuel generalizing n with
  | zero => rfl
  | succ f ih =>
    unfold digitsCore
    by_cases h : n = 0
    · simp [h]
    · simp only [if_neg h, List.all_cons, Bool.and_eq_true]
      exact ⟨isDigitChar_digitChar _ (Nat.mod_lt _ (by norm_num)), ih _⟩

lemma digitsVal_append (xs ys : List Char) :
    digitsVal (xs ++ ys) = ys.foldl (fun acc c => 10 * acc + charVal c) (digitsVal xs) := by
  simp [digitsVal, List.foldl_append]

lemma digitsVal_core_reverse (fuel : Nat) :
    ∀ n, n ≤ fuel → digitsVal ((digitsCore fuel n).reverse) = n := by
  induction fuel with
  | zero =>
    intro n hn
    interval_cases n
    rfl
  | succ f ih =>
    intro n hn
    by_cases h0 : n = 0
    · subst h0; rfl
    · have hdiv : n / 10 ≤ f := by
        have : n / 10 < n := Nat.div_lt_self (Nat.pos_of_ne_zero h0) (by norm_num)
        omega
      unfold digitsCore
      rw [if_neg h0, List.reverse_cons, digitsVal_append, ih _ hdiv]
      show 10 * (n / 10) + charVal (digitChar (n % 10)) = n
      rw [charVal_digitChar _ (Nat.mod_lt _ (by norm_num))]
      omega

lemma digitsCore_ne_nil (n : Nat) (h : n ≠ 0) : digitsCore n n ≠ [] := by
  cases n with
  | zero => exact absurd rfl h
  | succ m =>
    unfold digitsCore
    rw [if_neg (Nat.succ_ne_zero m)]
    exact List.cons_ne_nil _ _

lemma parseValue_natChars (n : Nat) : parseValue (natChars n) = some n := by
  by_cases h0 : n = 0
  · subst h0; rfl
  · unfold natChars
    rw [if_neg h0]
    unfold parseValue
    rw [if_neg (by
      simp only [List.isEmpty_iff, List.reverse_eq_nil_iff]
      exact digitsCore_ne_nil n h0)]
    rw [if_pos (by
      rw [List.all_reverse]
      exact digitsCore_all n n)]
    rw [digitsVal_core_reverse n n (le_refl n)]

lemma splitColon_append (pre rest : List Char) (h : ':' ∉ pre) :
    splitColon (pre ++ ':' :: rest) = some (pre, rest) := by
  induction pre with
  | nil => simp [splitColon]
  | cons c cs ih =>
    have hc : ¬(c = ':') := fun hc => h (hc ▸ List.mem_cons_self c cs)
    have hcs : ':' ∉ cs := fun hm => h (List.mem_cons_of_mem c hm)
    simp only [List.cons_append, splitColon, if_neg hc]
    rw [show cs.append (':' :: rest) = cs ++ ':' :: rest from rfl, ih hcs]
    rfl

lemma decode_encode (m : Message) (h : ':' ∉ m.name) :
    Message.decode (Message.encode m) = some m := by
  obtain ⟨nm, v⟩ := m
  unfold Message.encode Message.decode
  rw [splitColon_append nm (natChars v) h]
  simp [parseValue_natChars]

/-- Claim C1: for every recognized structured command name in
set-work, set-short, set-long and every non-negative integer value v,
decoding the encoding of (name, v) reproduces exactly (name, v). -/
theorem c1_decode_encode_roundtrip (name : List Char) (v : Nat)
    (h : name = ("set-work".data) ∨ name = ("set-short".data) ∨ name = ("set-long".data)) :
    Message.decode (Message.encode ⟨name, v⟩) = some ⟨name, v⟩ := by
  have hname : ':' ∉ name := by rcases h with h | h | h <;> subst h <;> decide
  exact decode_encode ⟨name, v⟩ hname

/-- Witness for C1 at the concrete input (set-work, 30). -/
theorem c1_decode_encode_roundtrip_witness :
    Message.decode (Message.encode ⟨"set-work".data, 30⟩) = some ⟨"set-work".data, 30⟩ :=
  c1_decode_encode_roundtrip ("set-work".data) 30 (Or.inl rfl)

/-! ## Timer state machine (Modelled from the spec)

services::timer::Timer is not among the provided sources; the fields and
operations below follow spec section 3 (data model) and section 4.2
(operations), plus the unit tests of server.rs, which pin down that the
configured durations live in an array indexed Work, ShortBreak, LongBreak
and that set_time stores minutes times MINUTE. The u16 fields are Nat,
reduced modulo 65536 where the source would wrap. The notification side
effect fired at a cycle transition is I/O and is not part of the state. -/

/-- Modelled from the spec: the single mutable TimerState entity of
section 3. Field names follow the uses in server.rs (elapsed_time,
running, session_completed, times); the durations array times is spread
over three fields so that equality stays decidable. -/
structure Timer where
  timesWork : Nat
  timesShort : Nat
  timesLong : Nat
  elapsed_time : Nat
  cycle : CycleType
  running : Bool
  session_completed : Nat
  socket_nr : Int
deriving DecidableEq, Repr

/-- Modelled from the spec: Timer::new as called by handle_client, with
the three configured durations and the identity integer; elapsed 0,
cycle Work, not running, no sessions completed. -/
def Timer.new (work short long : Nat) (nr : Int) : Timer :=
  ⟨work % U16MOD, short % U16MOD, long % U16MOD, 0, CycleType.Work, false, 0, nr⟩

/-- Configured duration of one cycle, as read by the unit tests of
server.rs (times indexed by cycle). -/
def Timer.get_time (t : Timer) : CycleType → Nat
  | CycleType.Work => t.timesWork
  | CycleType.ShortBreak => t.timesShort
  | CycleType.LongBreak => t.timesLong

/-- Modelled from the spec: the configured duration of the current cycle
(Timer::get_current_time as called at server.rs line 104). -/
def Timer.get_current_time (t : Timer) : Nat := t.get_time t.cycle

/-- Modelled from the spec: Timer::set_time overwrites the configured
duration for one cycle and nothing else; the unit tests of server.rs pin
the stored value to minutes times MINUTE, reduced as u16. -/
def Timer.set_time (t : Timer) (c : CycleType) (minutes : Nat) : Timer :=
  match c with
  | CycleType.Work => { t with timesWork := (minutes * MINUTE) % U16MOD }
  | CycleType.ShortBreak => { t with timesShort := (minutes * MINUTE) % U16MOD }
  | CycleType.LongBreak => { t with timesLong := (minutes * MINUTE) % U16MOD }

/-- Modelled from the spec: Timer::increment_time advances elapsed by one
second (one tick unit), wrapping as u16. -/
def Timer.increment_time (t : Timer) : Timer :=
  { t with elapsed_time := (t.elapsed_time + 1) % U16MOD }

/-- Modelled from the spec: Timer::reset sets elapsed 0, cycle Work,
running false, sessions 0; configured durations and identity stay. -/
def Timer.reset (t : Timer) : Timer :=
  { t with elapsed_time := 0, cycle := CycleType.Work,
           running := false, session_completed := 0 }

/-- Modelled from the spec: is the current cycle a break. -/
def Timer.is_break (t : Timer) : Bool := t.cycle ≠ CycleType.Work

/-- Modelled from the spec: the CSS-like class naming the active cycle. -/
def Timer.get_class (t : Timer) : String :=
  match t.cycle with
  | CycleType.Work => "work"
  | CycleType.ShortBreak => "short-break"
  | CycleType.LongBreak => "long-break"

/-- Modelled from the spec: Timer::update_state, the advance_if_complete
operation of section 4.2. When elapsed has reached the configured
duration of the current cycle it resets elapsed to 0 and transitions:
out of Work into a break, incrementing session_completed and promoting
every fourth work session to the long break (the spec leaves the
threshold N open and suggests the common choice 4, fixed here); out of a
break back into Work, leaving session_completed alone. The notification
dispatched at the transition is I/O and is not modelled. -/
def Timer.update_state (t : Timer) : Timer :=
  if t.get_current_time ≤ t.elapsed_time then
    match t.cycle with
    | CycleType.Work =>
      { t with elapsed_time := 0,
               session_completed := t.session_completed + 1,
               cycle := if (t.session_completed + 1) % 4 = 0
                        then CycleType.LongBreak else CycleType.ShortBreak }
    | _ => { t with elapsed_time := 0, cycle := CycleType.Work }
  else t

/-- Modelled from the spec: the configuration collaborator (read-only):
initial durations, the persistence flag and the icon glyphs. -/
structure Config where
  work_time : Nat
  short_break : Nat
  long_break : Nat
  persist : Bool
  play_icon : String
  pause_icon : String
  work_icon : String
  break_icon : String
deriving DecidableEq, Repr

/-- Modelled from the spec: the play or pause glyph for the running flag. -/
def Config.get_play_pause_icon (cfg : Config) (running : Bool) : String :=
  if running then cfg.pause_icon else cfg.play_icon

/-- Modelled from the spec: the glyph for the current cycle kind. -/
def Config.get_cycle_icon (cfg : Config) (isBreak : Bool) : String :=
  if isBreak then cfg.break_icon else cfg.work_icon

/-! ## Rendering helpers of server.rs -/

/-- u16 wrapping subtraction of a release build, for arguments below
65536: the value of the Rust expression a - b on u16. -/
def u16sub (a b : Nat) : Nat := (a + U16MOD - b) % U16MOD

/-- Zero-padded two-digit decimal field, the Rust format specifier 02. -/
def pad2 (n : Nat) : String :=
  if n < 10 then "0" ++ Nat.repr n else Nat.repr n

/-- format_time of server.rs lines 39 to 44: remaining time of the
current cycle as MM:SS, computed from the unguarded u16 subtraction
max_time minus elapsed_time. -/
def format_time (elapsed_time max_time : Nat) : String :=
  let time := u16sub max_time elapsed_time
  pad2 (time / MINUTE) ++ ":" ++ pad2 (time % MINUTE)

/-- create_message of server.rs lines 46 to 51: the JSON-like status
object with text, tooltip, class and alt (alt mirrors class). -/
def create_message (value : String) (tooltip : String) (cls : String) : String :=
  "\x7b\"text\": \"" ++ value ++ "\", \"tooltip\": \"" ++ tooltip ++
    "\", \"class\": \"" ++ cls ++ "\", \"alt\": \"" ++ cls ++ "\"\x7d"

/-- Does the needle start the haystack. -/
def startsWithCh : List Char → List Char → Bool
  | _, [] => true
  | [], _ :: _ => false
  | a :: as, b :: bs => a == b && startsWithCh as bs

/-- Substring containment over character lists, the Rust str contains. -/
def containsSub : List Char → List Char → Bool
  | [], needle => needle.isEmpty
  | hay@(_ :: rest), needle => startsWithCh hay needle || containsSub rest needle

/-- Space-separated words of a character list, empty words dropped. -/
def wordsCh : List Char → List Char → List (List Char)
  | [], acc => if acc.isEmpty then [] else [acc.reverse]
  | c :: cs, acc =>
    if c = ' ' then
      if acc.isEmpty then wordsCh cs [] else acc.reverse :: wordsCh cs []
    else wordsCh cs (c :: acc)

/-- Join words with single spaces. -/
def unwordsCh : List (List Char) → List Char
  | [] => []
  | [w] => w
  | w :: ws => w ++ ' ' :: unwordsCh ws

/-- Modelled from the spec: utils::helper::trim_whitespace (module not
among the provided sources), which normalizes the assembled status text;
modelled as collapsing runs of spaces and dropping leading and trailing
ones. -/
def trim_whitespace (s : String) : String :=
  String.mk (unwordsCh (wordsCh s.data []))

/-! ## process_message, server.rs lines 53 to 80 -/

/-- process_message of server.rs: a payload that decodes as a structured
command dispatches on its name (the value is narrowed to u16 by the
source cast); any other payload is interpreted as a bare keyword, and an
unrecognized one only logs. Total: no input changes more than the
dispatch says, none panics. -/
def process_message (state : Timer) (message : List Char) : Timer :=
  match Message.decode message with
  | some msg =>
    if msg.name = ("set-work".data) then state.set_time CycleType.Work (msg.value % U16MOD)
    else if msg.name = ("set-short".data) then state.set_time CycleType.ShortBreak (msg.value % U16MOD)
    else if msg.name = ("set-long".data) then state.set_time CycleType.LongBreak (msg.value % U16MOD)
    else state
  | none =>
    if message = ("start".data) then { state with running := true }
    else if message = ("stop".data) then { state with running := false }
    else if message = ("toggle".data) then { state with running := !state.running }
    else if message = ("reset".data) then state.reset
    else state

/-! ## The tick loop, handle_client, server.rs lines 99 to 139

One iteration of the loop body is embedded as a function of the timer
plus the pending command queue (the mpsc channel contents, FIFO). The
iteration returns the new state, the status line printed to stdout and
the snapshot handed to the persistence adapter (none when persistence is
off). The trailing fixed-period sleep has no observable state. -/

/-- The state owned by the tick thread: the timer plus the queued
commands not yet drained, in arrival order. -/
structure TickState where
  timer : Timer
  queue : List (List Char)
deriving DecidableEq, Repr

/-- What one loop iteration produces besides the next state. -/
structure TickResult where
  state : TickState
  line : String
  persisted : Option Timer
deriving DecidableEq, Repr

/-- Lines 100 to 102: rx.try_recv, the non-blocking drain of at most one
queued command; an empty queue leaves the timer untouched. -/
def drainStep (ts : TickState) : TickState :=
  match ts.queue with
  | [] => ts
  | m :: rest => ⟨process_message ts.timer m, rest⟩

/-- The tooltip of server.rs lines 106 to 114: the completed count, the
word pomodoro with a plural s when the count is 0 or above 1, and the
fixed phrase completed this session. -/
def tooltipText (n : Nat) : String :=
  Nat.repr n ++ " pomodoro" ++
    (if n > 1 ∨ n = 0 then "s" else "") ++
    " completed this session"

/-- Lines 104 to 116 and 118 to 128: the status line assembled from the
drained state (value, play or pause glyph, tooltip with its
pluralization, class, cycle glyph). -/
def statusLine (cfg : Config) (t : Timer) : String :=
  let value := format_time t.elapsed_time t.get_current_time
  let ppIcon := cfg.get_play_pause_icon t.running
  let tooltip := tooltipText t.session_completed
  let cls := t.get_class
  let cycleIcon := cfg.get_cycle_icon t.is_break
  create_message (trim_whitespace (ppIcon ++ " " ++ value ++ " " ++ cycleIcon)) tooltip cls

/-- Lines 130 to 132: advance elapsed by one second when running. -/
def incrementStep (t : Timer) : Timer :=
  if t.running then t.increment_time else t

/-- Lines 134 to 136: hand the state to the persistence adapter when
enabled (the adapter itself is I/O and outside the state machine). -/
def persistStep (cfg : Config) (t : Timer) : Option Timer :=
  if cfg.persist then some t else none

/-- One iteration of the tick loop of handle_client, statement by
statement in the order of the source: drain at most one command (lines
100 to 102), compute the status strings from the drained state (104 to
116), evaluate update_state (117), print the line (118 to 128),
increment elapsed if the drained state is running (130 to 132, the
running flag is untouched by update_state), persist if enabled (134 to
136), sleep for the fixed period (138, no observable state). -/
def tick (cfg : Config) (ts : TickState) : TickResult :=
  let state :=
    match ts.queue with
    | [] => ts.timer
    | m :: _ => process_message ts.timer m
  let queue :=
    match ts.queue with
    | [] => ([] : List (List Char))
    | _ :: rest => rest
  let value := format_time state.elapsed_time state.get_current_time
  let ppIcon := cfg.get_play_pause_icon state.running
  let tooltip := tooltipText state.session_completed
  let cls := state.get_class
  let cycleIcon := cfg.get_cycle_icon state.is_break
  let state2 := state.update_state
  let line := create_message (trim_whitespace (ppIcon ++ " " ++ value ++ " " ++ cycleIcon)) tooltip cls
  let state3 := if state2.running then state2.increment_time else state2
  ⟨⟨state3, queue⟩, line, if cfg.persist then some state3 else none⟩

/-- The timer part of a tick after the drain: update_state then the
conditional increment. -/
def tickBody (t : Timer) : Timer := incrementStep t.update_state

/-- Iterate the tick loop a number of times, keeping only the state. -/
def tickN (cfg : Config) : Nat → TickState → TickState
  | 0, ts => ts
  | n + 1, ts => tickN cfg n (tick cfg ts).state

/-- A concrete configuration used by witnesses: the durations of spec
Scenario A, persistence off, ASCII glyphs. -/
def cfgA : Config := ⟨1500, 300, 900, false, "p", "q", "w", "b"⟩

/-- The fresh timer handle_client builds from that configuration. -/
def timerA : Timer := Timer.new cfgA.work_time cfgA.short_break cfgA.long_break 0

/-! ## The accept loop, spawn_server, server.rs lines 158 to 175

Each element of the input list is the full payload of one accepted
connection, in order. A payload containing "exit" deletes the socket
file and breaks out of the loop; any other payload is forwarded over the
channel to the tick thread. The result collects the forwarded payloads
and whether the rendezvous artifact still exists when the loop is left. -/
def acceptLoop : List (List Char) → List (List Char) × Bool
  | [] => ([], true)
  | m :: rest =>
    if containsSub m ("exit".data) then ([], false)
    else
      let r := acceptLoop rest
      (m :: r.1, r.2)

/-! ## Small facts about the modelled timer operations -/

lemma set_time_cycle (t : Timer) (c : CycleType) (v : Nat) :
    (t.set_time c v).cycle = t.cycle := by cases c <;> rfl

lemma set_time_elapsed (t : Timer) (c : CycleType) (v : Nat) :
    (t.set_time c v).elapsed_time = t.elapsed_time := by cases c <;> rfl

lemma set_time_running (t : Timer) (c : CycleType) (v : Nat) :
    (t.set_time c v).running = t.running := by cases c <;> rfl

lemma set_time_get_self (t : Timer) (c : CycleType) (v : Nat) :
    (t.set_time c v).get_time c = (v * MINUTE) % U16MOD := by
  cases c <;> rfl

lemma incrementStep_cycle (t : Timer) : (incrementStep t).cycle = t.cycle := by
  unfold incrementStep Timer.increment_time
  split <;> rfl

lemma incrementStep_current (t : Timer) :
    (incrementStep t).get_current_time = t.get_current_time := by
  cases hr : t.running <;> cases hc : t.cycle <;>
    simp [incrementStep, Timer.increment_time, Timer.get_current_time, Timer.get_time, hr, hc]

lemma incrementStep_elapsed (t : Timer) :
    (incrementStep t).elapsed_time =
      if t.running then (t.elapsed_time + 1) % U16MOD else t.elapsed_time := by
  cases hr : t.running <;> simp [incrementStep, Timer.increment_time, hr]

/-- After update_state, either the cycle just completed (elapsed is 0 and
the cycle moved on) or nothing happened and elapsed is strictly under the
configured duration. -/
lemma update_state_resolves (t : Timer) :
    (t.update_state).elapsed_time = 0 ∨
      (t.update_state = t ∧ t.elapsed_time < t.get_current_time) := by
  unfold Timer.update_state
  by_cases h : t.get_current_time ≤ t.elapsed_time
  · rw [if_pos h]
    cases hc : t.cycle <;> simp
  · rw [if_neg h]
    exact Or.inr ⟨rfl, Nat.lt_of_not_le h⟩

/-- A completed cycle resets elapsed, leaves the running flag and moves
to a different cycle. -/
lemma update_state_complete (t : Timer) (h : t.get_current_time ≤ t.elapsed_time) :
    (t.update_state).elapsed_time = 0 ∧ (t.update_state).cycle ≠ t.cycle ∧
      (t.update_state).running = t.running := by
  unfold Timer.update_state
  rw [if_pos h]
  cases hc : t.cycle <;> simp [hc]
  split <;> simp

/-- The structured command name that sets the duration of one cycle. -/
def setCmdName : CycleType → List Char
  | CycleType.Work => "set-work".data
  | CycleType.ShortBreak => "set-short".data
  | CycleType.LongBreak => "set-long".data

/-- A structured set payload drives process_message into set_time. -/
lemma process_message_encode_set (t : Timer) (c : CycleType) (v : Nat) (hv : v < U16MOD) :
    process_message t (Message.encode ⟨setCmdName c, v⟩) = t.set_time c v := by
  have hn : ':' ∉ setCmdName c := by cases c <;> decide
  have hd : Message.decode (Message.encode ⟨setCmdName c, v⟩) = some ⟨setCmdName c, v⟩ :=
    decode_encode ⟨setCmdName c, v⟩ hn
  unfold process_message
  rw [hd]
  cases c <;> simp +decide [setCmdName, Nat.mod_eq_of_lt hv]

/-! ## Claims C2 and C5: the tick loop shape -/

/-- Claim C2: each tick consumes at most one queued command, in arrival
order: with two commands pending, the first tick applies only the first
and leaves the second queued, the following tick applies the second; an
empty queue leaves the timer to the rest of the tick unchanged. -/
theorem c2_one_command_per_tick (cfg : Config) (t : Timer) (m1 m2 : List Char)
    (q : List (List Char)) :
    (tick cfg ⟨t, m1 :: m2 :: q⟩).state = ⟨tickBody (process_message t m1), m2 :: q⟩
    ∧ (tick cfg (tick cfg ⟨t, m1 :: m2 :: q⟩).state).state
        = ⟨tickBody (process_message (tickBody (process_message t m1)) m2), q⟩
    ∧ (tick cfg ⟨t, []⟩).state = ⟨tickBody t, []⟩ :=
  ⟨rfl, rfl, rfl⟩

/-- The tick in the order the spec claims (C5): status computed and
emitted, then elapsed advanced, then advance-if-complete evaluated. -/
def tickClaimed (cfg : Config) (ts : TickState) : TickResult :=
  let ts1 := drainStep ts
  let line := statusLine cfg ts1.timer
  let t1 := incrementStep ts1.timer
  let t2 := t1.update_state
  ⟨⟨t2, ts1.queue⟩, line, persistStep cfg t2⟩

/-- A timer one second short of completing its work cycle, running. -/
def t5 : Timer := ⟨1500, 300, 900, 1499, CycleType.Work, true, 0, 0⟩

/-- Counterexample to C5 as stated: with elapsed one below the bound the
source order (advance-if-complete before the increment) leaves elapsed at
the bound with the cycle unchanged, while the claimed order (increment
before advance-if-complete) completes the cycle on this tick. -/
theorem c5_counterexample : tick cfgA ⟨t5, []⟩ ≠ tickClaimed cfgA ⟨t5, []⟩ := by
  decide

/-- Claim C5 amended: each iteration drains at most one pending command,
computes the rendered status from the drained state, evaluates
advance-if-complete, emits the (pre-advance) status line, then advances
elapsed by one second if running, then persists the post-increment state
if enabled, then sleeps. (The source evaluates update_state before the
increment and before the print; the printed text is computed before
both.) -/
theorem c5_tick_step_order (cfg : Config) (ts : TickState) :
    tick cfg ts =
      ⟨⟨incrementStep ((drainStep ts).timer.update_state), (drainStep ts).queue⟩,
        statusLine cfg (drainStep ts).timer,
        persistStep cfg (incrementStep ((drainStep ts).timer.update_state))⟩ := by
  cases ts with
  | mk t q => cases q <;> rfl

/-! ## Claim C3: the elapsed bound after a tick -/

/-- Three ticks that leave a zero-duration cycle current: set the work
duration to 0, set the short break duration to 0, then start; the third
tick completes the zero-length work cycle, moves to the zero-length short
break and still increments elapsed to 1. -/
def c3run : TickState :=
  tickN cfgA 3 ⟨timerA,
    [Message.encode ⟨"set-work".data, 0⟩,
     Message.encode ⟨"set-short".data, 0⟩,
     "start".data]⟩

/-- Counterexample to C3 as stated: a reachable state observed right
after a tick completes whose elapsed (1) exceeds the configured duration
of its current cycle (0). -/
theorem c3_counterexample :
    c3run.timer.get_current_time = 0 ∧ c3run.timer.elapsed_time = 1 ∧
      c3run.timer.get_current_time < c3run.timer.elapsed_time := by
  decide

/-- Claim C3 amended: observed immediately after a tick completes,
elapsed does not exceed the configured duration of the current cycle
whenever that duration is at least one second; a zero duration can be
exceeded by the increment for one tick (resolution happens on the next
tick, not within the same one). -/
theorem c3_elapsed_bounded (cfg : Config) (ts : TickState)
    (h : 1 ≤ (tick cfg ts).state.timer.get_current_time) :
    (tick cfg ts).state.timer.elapsed_time ≤ (tick cfg ts).state.timer.get_current_time := by
  have ht : (tick cfg ts).state.timer = incrementStep ((drainStep ts).timer.update_state) := by
    cases ts with
    | mk t q => cases q <;> rfl
  rw [ht] at h ⊢
  rw [incrementStep_current] at h ⊢
  rw [incrementStep_elapsed]
  have hd : ((drainStep ts).timer.update_state).elapsed_time = 0 ∨
      ((drainStep ts).timer.update_state).elapsed_time <
        ((drainStep ts).timer.update_state).get_current_time := by
    rcases update_state_resolves (drainStep ts).timer with hz | ⟨heq, hlt⟩
    · exact Or.inl hz
    · rw [heq]
      exact Or.inr hlt
  split
  · unfold U16MOD at *
    have := Nat.mod_le (((drainStep ts).timer.update_state).elapsed_time + 1) 65536
    omega
  · omega

/-- Witness for C3 amended at a fresh paused timer. -/
theorem c3_elapsed_bounded_witness :
    (tick cfgA ⟨timerA, []⟩).state.timer.elapsed_time ≤
      (tick cfgA ⟨timerA, []⟩).state.timer.get_current_time :=
  c3_elapsed_bounded cfgA ⟨timerA, []⟩ (by decide)

/-! ## Claim C4: shrinking a duration below elapsed -/

/-- Claim C4: a set command that shrinks the current cycle duration
strictly below the current elapsed (0 included) is resolved lazily: the
tick that drains it immediately completes the cycle in its
advance-if-complete step, resetting elapsed (to 0, then the usual
increment runs) and transitioning the cycle, instead of clamping
elapsed; the tick is a total function, it does not fail. -/
theorem c4_shrink_resolved_lazily (cfg : Config) (t : Timer) (c : CycleType) (v : Nat)
    (q : List (List Char))
    (hc : t.cycle = c)
    (hv : v * MINUTE < U16MOD)
    (hshrink : v * MINUTE < t.elapsed_time) :
    (tick cfg ⟨t, Message.encode ⟨setCmdName c, v⟩ :: q⟩).state.timer.cycle ≠ c
    ∧ (tick cfg ⟨t, Message.encode ⟨setCmdName c, v⟩ :: q⟩).state.timer.elapsed_time
        = (if t.running then 1 else 0) := by
  have hv' : v < U16MOD := by
    have : v ≤ v * MINUTE := Nat.le_mul_of_pos_right v (by norm_num [MINUTE])
    omega
  have ht : (tick cfg ⟨t, Message.encode ⟨setCmdName c, v⟩ :: q⟩).state.timer
      = incrementStep ((process_message t (Message.encode ⟨setCmdName c, v⟩)).update_state) :=
    rfl
  rw [ht, process_message_encode_set t c v hv']
  have hcur : (t.set_time c v).get_current_time = (v * MINUTE) % U16MOD := by
    unfold Timer.get_current_time
    rw [set_time_cycle, hc]
    exact set_time_get_self t c v
  have hle : (t.set_time c v).get_current_time ≤ (t.set_time c v).elapsed_time := by
    rw [hcur, Nat.mod_eq_of_lt hv, set_time_elapsed]
    exact Nat.le_of_lt hshrink
  obtain ⟨hz, hne, hrun⟩ := update_state_complete (t.set_time c v) hle
  refine ⟨?_, ?_⟩
  · rw [incrementStep_cycle]
    rw [set_time_cycle, hc] at hne
    exact hne
  · rw [incrementStep_elapsed, hz, hrun, set_time_running]
    cases hr : t.running <;> simp [hr, U16MOD]

/-- A running timer in its work cycle with 100 seconds elapsed. -/
def t4 : Timer := ⟨1500, 300, 900, 100, CycleType.Work, true, 0, 0⟩

/-- Witness for C4: shrinking the work duration to one minute under 100
seconds elapsed completes the work cycle on the draining tick. -/
theorem c4_shrink_resolved_lazily_witness :
    (tick cfgA ⟨t4, Message.encode ⟨setCmdName CycleType.Work, 1⟩ :: []⟩).state.timer.cycle
        ≠ CycleType.Work
    ∧ (tick cfgA ⟨t4, Message.encode ⟨setCmdName CycleType.Work, 1⟩ :: []⟩).state.timer.elapsed_time
        = (if t4.running then 1 else 0) :=
  c4_shrink_resolved_lazily cfgA t4 CycleType.Work 1 [] rfl (by decide) (by decide)

/-! ## Claim C6: tooltip pluralization -/

/-- Counterexample to C6 as stated: at zero completed sessions the claim
asks for the plural form of the word session, but the emitted tooltip
never contains the word sessions; the trailing phrase this session stays
singular for every count (the pluralized noun is pomodoro). -/
theorem c6_counterexample :
    tooltipText 0 = "0 pomodoros completed this session"
    ∧ containsSub (tooltipText 0).data ("sessions".data) = false
    ∧ containsSub (tooltipText 0).data ("session".data) = true := by
  decide

/-- Claim C6 amended: the noun the tooltip pluralizes is pomodoro, and
it is singular exactly when the completed count is 1 and plural when the
count is 0 or at least 2; the closing phrase this session is fixed. -/
theorem c6_pomodoro_pluralization (n : Nat) :
    tooltipText n =
      Nat.repr n ++ " pomodoro" ++ (if n = 1 then "" else "s") ++
        " completed this session" := by
  unfold tooltipText
  rcases n with _ | _ | n
  · simp
  · simp
  · have h1 : n + 1 + 1 > 1 := by omega
    have h2 : ¬(n + 1 + 1 = 1) := by omega
    simp [h1, h2]

/-! ## Claim C7: unrecognized payloads -/

/-- Claim C7: a payload that neither decodes to a set command with one of
the three recognized names nor equals one of the four bare keywords
leaves the timer state unchanged (the source only logs it); being a total
function, process_message does not crash, and a malformed structured
payload falls through to the bare-keyword branch. -/
theorem c7_unrecognized_ignored (t : Timer) (msg : List Char)
    (hdec : ∀ m : Message, Message.decode msg = some m →
      m.name ≠ ("set-work".data) ∧ m.name ≠ ("set-short".data) ∧ m.name ≠ ("set-long".data))
    (hkw : msg ≠ ("start".data) ∧ msg ≠ ("stop".data) ∧
      msg ≠ ("toggle".data) ∧ msg ≠ ("reset".data)) :
    process_message t msg = t := by
  unfold process_message
  cases hd : Message.decode msg with
  | some m =>
    obtain ⟨h1, h2, h3⟩ := hdec m hd
    simp [h1, h2, h3]
  | none =>
    obtain ⟨k1, k2, k3, k4⟩ := hkw
    simp [k1, k2, k3, k4]

/-- Witness for C7 at the unrecognized payload hello. -/
theorem c7_unrecognized_ignored_witness : process_message timerA ("hello".data) = timerA :=
  c7_unrecognized_ignored timerA ("hello".data)
    (by
      intro m hm
      have hd : Message.decode ("hello".data) = none := by decide
      rw [hd] at hm
      exact Option.noConfusion hm)
    ⟨by decide, by decide, by decide, by decide⟩

/-! ## Claim C8: the set-work 30 scenario -/

/-- The fresh timer after processing the encoded set-work 30 payload. -/
def setWork30Timer : Timer :=
  process_message timerA (Message.encode ⟨"set-work".data, 30⟩)

/-- Claim C8: the structured set-work payload with value 30 sets the work
duration to 30 times 60 seconds, and the render of that state (elapsed
still 0) shows the remaining time 30:00, both as the raw format_time
value and inside the emitted status line. -/
theorem c8_set_work_30 :
    setWork30Timer.get_time CycleType.Work = 30 * MINUTE
    ∧ setWork30Timer.elapsed_time = 0
    ∧ format_time setWork30Timer.elapsed_time setWork30Timer.get_current_time = "30:00"
    ∧ containsSub (statusLine cfgA setWork30Timer).data ("30:00".data) = true := by
  decide

/-! ## Claim C9: the exit payload -/

/-- Claim C9: however many exit-free connections precede it, a payload
containing the keyword exit makes the accept loop delete the rendezvous
artifact (the socket flag ends false) and break out (nothing after it is
processed, whatever it is), and that payload is not forwarded to the
state-owner thread (the forwarded list is exactly the preceding
payloads). -/
theorem c9_exit_stops_accept_loop (pre : List (List Char)) (m : List Char)
    (rest : List (List Char))
    (hpre : ∀ p ∈ pre, containsSub p ("exit".data) = false)
    (hm : containsSub m ("exit".data) = true) :
    acceptLoop (pre ++ m :: rest) = (pre, false) := by
  revert hpre
  induction pre with
  | nil =>
    intro _
    simp [acceptLoop, hm]
  | cons p ps ih =>
    intro hpre
    have hp : containsSub p ("exit".data) = false := hpre p (List.mem_cons_self p ps)
    have ih2 := ih (fun x hx => hpre x (List.mem_cons_of_mem p hx))
    simp [acceptLoop, hp, ih2]

/-- Witness for C9: one ordinary payload, then one containing exit, then
one more that is never reached. -/
theorem c9_exit_stops_accept_loop_witness :
    acceptLoop [("start".data), ("exit".data), ("stop".data)] = ([("start".data)], false) :=
  c9_exit_stops_accept_loop [("start".data)] ("exit".data) [("stop".data)]
    (by decide) (by decide)

/-! ## Claim C10: the unguarded u16 subtraction in format_time -/

/-- Two queued commands: start, then set the work duration to zero. -/
def shrinkState : TickState :=
  (tick cfgA ⟨timerA, [("start".data), Message.encode ⟨"set-work".data, 0⟩]⟩).state

/-- The timer format_time is applied to on the second tick, right after
that tick drains the set-work 0 command and before update_state runs. -/
def shrinkDrained : Timer := (drainStep shrinkState).timer

/-- Claim C10: the u16 subtraction max_time minus elapsed_time in
format_time has no guard, so it returns the true remaining time exactly
under the precondition elapsed_time at most max_time (otherwise it
wraps); and because the tick loop renders before its advance-if-complete
step, the call site is reached with elapsed over the bound after a set
command shrinks the current duration below elapsed - concretely, one
second into a running work cycle shrunk to zero, format_time receives
elapsed 1 and bound 0 and renders the wrapped 1092:15. -/
theorem c10_format_time_unguarded (e m : Nat) (he : e < U16MOD) (hm : m < U16MOD) :
    (((u16sub m e : Nat) : Int) = (m : Int) - (e : Int) ↔ e ≤ m)
    ∧ shrinkDrained.get_current_time < shrinkDrained.elapsed_time
    ∧ format_time shrinkDrained.elapsed_time shrinkDrained.get_current_time = "1092:15" := by
  refine ⟨?_, by decide, by decide⟩
  unfold u16sub U16MOD at *
  omega

/-- Witness for C10 at elapsed 3, bound 5. -/
theorem c10_format_time_unguarded_witness :
    (((u16sub 5 3 : Nat) : Int) = (5 : Int) - (3 : Int) ↔ 3 ≤ 5)
    ∧ shrinkDrained.get_current_time < shrinkDrained.elapsed_time
    ∧ format_time shrinkDrained.elapsed_time shrinkDrained.get_current_time = "1092:15" :=
  c10_format_time_unguarded 3 5 (by decide) (by decide)

end Pomodoro
